import Mathlib

/-!
Verification development for the tor-war repository (Rust).

The source is shallowly embedded: paths are lists of components of an
absolute path, external commands are records of program name and argument
list, and every interaction with the outside world (filesystem probes,
command spawning and exit statuses, the bootstrap HTTP round trips, the
control-channel connection) is supplied by an explicit environment record,
so all definitions are executable and claims can be evaluated on concrete
inputs.
-/

namespace TorWar

/-! ## Data model (src/config.rs) -/

/-- `TorConfig` from src/config.rs.  The `data_directory` `PathBuf` is
modelled as the list of components of an absolute path.  The field
`country` is read by `generate_torrc` in src/engine.rs
(`self.config.tor.country`) although src/config.rs does not declare it;
it is included here so the engine embedding is faithful to engine.rs. -/
structure TorConfig where
  socks_port : Nat
  control_port : Nat
  dns_port : Nat
  data_directory : List String
  use_bridges : Bool
  client_transport_plugin : Option String
  bridges : List String
  exit_nodes : List String
  country : Option String
  deriving Repr, DecidableEq

/-- `FirewallConfig` from src/config.rs. -/
structure FirewallConfig where
  enable_kill_switch : Bool
  allow_lan : Bool
  block_ipv6 : Bool
  deriving Repr, DecidableEq

/-- `RotationConfig` from src/config.rs. -/
structure RotationConfig where
  auto_rotate : Bool
  interval_seconds : Nat
  deriving Repr, DecidableEq

/-- `NipeConfig` from src/config.rs. -/
structure NipeConfig where
  tor : TorConfig
  firewall : FirewallConfig
  rotation : RotationConfig
  deriving Repr, DecidableEq

/-- `Default for NipeConfig` (src/config.rs lines 40-64):
data_directory `/tmp/nipe/tor-data`, ports 9050/9051/9061. -/
def defaultNipeConfig : NipeConfig :=
  { tor :=
    { socks_port := 9050
      control_port := 9051
      dns_port := 9061
      data_directory := ["tmp", "nipe", "tor-data"]
      use_bridges := false
      client_transport_plugin := none
      bridges := []
      exit_nodes := []
      country := none }
    firewall :=
    { enable_kill_switch := true
      allow_lan := true
      block_ipv6 := true }
    rotation :=
    { auto_rotate := true
      interval_seconds := 60 } }

/-- `PathBuf::display` for our component-list model of absolute paths. -/
def pathDisplay (p : List String) : String :=
  "/" ++ String.intercalate "/" p

/-! ## Error type (src/error.rs)

`NipeError` from src/error.rs.  The `IoError` and `RequestError` payloads
carry the message text of the wrapped error.  `CommandError` is referenced
by src/platform/windows.rs (`crate::error::NipeError::CommandError`)
although src/error.rs does not declare it; it is included so the Windows
variant can be embedded as written. -/
inductive NipeError where
  | TorStartFailed (s : String)
  | TorStopFailed (s : String)
  | BootstrapTimeout
  | NotConnected
  | FirewallError (s : String)
  | InterfaceNotFound
  | ConfigError (s : String)
  | IoError (s : String)
  | RequestError (s : String)
  | Other (s : String)
  | CommandError (s : String)
  deriving Repr, DecidableEq

/-! ## Runtime configuration generation (src/engine.rs, generate_torrc) -/

/-- The obfs4proxy probe paths of `generate_torrc` (src/engine.rs lines
347-351, the non-Windows `paths` array). -/
def obfs4Paths : List String :=
  ["/usr/bin/obfs4proxy", "/usr/local/bin/obfs4proxy", "/opt/homebrew/bin/obfs4proxy"]

/-- The `bridge_config` string of `generate_torrc` (src/engine.rs lines
338-383).  `fsExists` is the filesystem probe `Path::new(p).exists()`. -/
def bridgeConfig (cfg : TorConfig) (fsExists : String → Bool) : String :=
  if cfg.use_bridges then
    let plugin : String :=
      match cfg.client_transport_plugin with
      | some path => "ClientTransportPlugin obfs4 exec " ++ path ++ "\n"
      | none =>
        match obfs4Paths.find? fsExists with
        | some p => "ClientTransportPlugin obfs4 exec " ++ p ++ "\n"
        | none => "ClientTransportPlugin obfs4 exec /usr/bin/obfs4proxy\n"
    let bridgeLines : String :=
      String.join (cfg.bridges.map (fun b => "Bridge " ++ b ++ "\n"))
    "\n# Bridge Configuration\nUseBridges 1\n" ++ plugin ++ bridgeLines
  else
    ""

/-- The exit-node fragment of `generate_torrc` (src/engine.rs lines
403-411).  Literal braces of the torrc syntax are written \x7b and \x7d. -/
def exitNodesFragment (cfg : TorConfig) : String :=
  if cfg.exit_nodes.isEmpty then
    match cfg.country with
    | some country => "ExitNodes \x7b" ++ country ++ "\x7d\nStrictNodes 1"
    | none => ""
  else
    "ExitNodes \x7b" ++ String.intercalate "," cfg.exit_nodes ++ "\x7d"

/-- The full torrc text produced by `generate_torrc` (src/engine.rs lines
385-412): the `format!` template instantiated with the ports, the data
directory display, the bridge fragment and the exit-node fragment. -/
def torrcContent (cfg : TorConfig) (fsExists : String → Bool) : String :=
  "\n# Nipe Tor Configuration\nSocksPort " ++ toString cfg.socks_port ++
  "\nControlPort " ++ toString cfg.control_port ++
  "\nDataDirectory " ++ pathDisplay cfg.data_directory ++
  "\n\n# Basic settings\nLog notice stdout\nDisableNetwork 0\n" ++
  bridgeConfig cfg fsExists ++
  "\n# Exit nodes preference (if specified)\n" ++
  exitNodesFragment cfg ++ "\n"

/-- The path `generate_torrc` writes to and returns (src/engine.rs lines
414-420): `data_directory.parent().unwrap().join("torrc")`. -/
def torrcPath (cfg : NipeConfig) : List String :=
  cfg.tor.data_directory.dropLast ++ ["torrc"]

/-! ## External commands

An external command invocation carries a program name and its argument
list.  Spawning a command either fails at the OS level (modelled as
`Except.error` with the I/O error text — the `Err` of `Command::output` /
`Command::status`) or yields the process outcome: its exit-status success
flag and captured standard-error text. -/

/-- Outcome of a spawned external command: exit-status success flag and
captured standard error. -/
structure CmdResult where
  success : Bool
  stderr : String
  deriving Repr, DecidableEq

/-- The host's command executor: given program and arguments, an OS-level
spawn failure message or the command's outcome. -/
def Exec : Type := String → List String → Except String CmdResult

/-! ## Linux firewall variant (src/platform/linux.rs) -/

/-- One installed iptables rule: table, chain, and the remaining rule
specification. -/
structure FwRule where
  table : String
  chain : String
  spec : List String
  deriving Repr, DecidableEq

/-- Minimal semantics of one successfully executed iptables invocation on
the installed ruleset: `-F` flushes a table's chain, `-A` appends a rule,
everything else (`-X` on chains we never create) leaves the set unchanged. -/
def applyIptables (st : List FwRule) (args : List String) : List FwRule :=
  match args with
  | "-t" :: t :: "-F" :: ch :: _ => st.filter (fun r => !(r.table == t && r.chain == ch))
  | "-t" :: t :: "-A" :: ch :: spec => st ++ [⟨t, ch, spec⟩]
  | _ => st

/-- A kill switch counts as active while any rule sits in the OUTPUT chain
of the nat or filter table — exactly the chains the Linux variant writes. -/
def killSwitchActive (fw : List FwRule) : Bool :=
  fw.any (fun r => (r.table == "nat" || r.table == "filter") && r.chain == "OUTPUT")

/-- `iptables -t nat -F OUTPUT` (src/platform/linux.rs lines 21-23, 41-43). -/
def flushNatArgs : List String := ["-t", "nat", "-F", "OUTPUT"]

/-- `iptables -t filter -F OUTPUT` (src/platform/linux.rs lines 24-26, 44-46). -/
def flushFilterArgs : List String := ["-t", "filter", "-F", "OUTPUT"]

/-- The NAT rule commands of `setup_nat_rules` (src/platform/linux.rs lines
72-138), in order.  The redirect target ports are the string literals
"9061" and "9051" of the source; no configuration value reaches this
function — its only parameter is the firewall's `tor_user` field. -/
def linuxNatRuleArgs (tor_user : String) : List (List String) :=
  [ ["-t", "nat", "-A", "OUTPUT", "-m", "state", "--state", "ESTABLISHED", "-j", "RETURN"],
    ["-t", "nat", "-A", "OUTPUT", "-m", "owner", "--uid-owner", tor_user, "-j", "RETURN"],
    ["-t", "nat", "-A", "OUTPUT", "-p", "udp", "--dport", "53", "-j", "REDIRECT", "--to-ports", "9061"],
    ["-t", "nat", "-A", "OUTPUT", "-p", "tcp", "--dport", "53", "-j", "REDIRECT", "--to-ports", "9061"],
    ["-t", "nat", "-A", "OUTPUT", "-p", "tcp", "-j", "REDIRECT", "--to-ports", "9051"] ]

/-- The filter rule commands of `setup_filter_rules` (src/platform/linux.rs
lines 147-182), in order. -/
def linuxFilterRuleArgs (tor_user : String) : List (List String) :=
  [ ["-t", "filter", "-A", "OUTPUT", "-m", "state", "--state", "ESTABLISHED", "-j", "ACCEPT"],
    ["-t", "filter", "-A", "OUTPUT", "-m", "owner", "--uid-owner", tor_user, "-j", "ACCEPT"],
    ["-t", "filter", "-A", "OUTPUT", "-p", "udp", "-j", "REJECT"],
    ["-t", "filter", "-A", "OUTPUT", "-p", "icmp", "-j", "REJECT"] ]

/-- `LinuxFirewall::new` stores `tor_user = "debian-tor"`
(src/platform/linux.rs lines 11-15). -/
def linuxTorUser : String := "debian-tor"

/-- Trace events of the embedded engine and firewall code. -/
inductive Event where
  | runCmd (program : String) (args : List String)
  | fsWrite (path : String)
  | spawn (program : String) (args : List String)
  | killProcess (pid : Nat)
  deriving Repr, DecidableEq

/-- Firewall-affecting execution state: the installed iptables ruleset and
the trace of events so far. -/
structure ExecSt where
  fw : List FwRule
  trace : List Event
  deriving Repr, DecidableEq

/-- Run one iptables command the way `Command::new("iptables").args(..)
.output()` does: record the invocation, report a spawn failure as `none`,
and apply the rule effect only when the command actually ran and exited
successfully. -/
def runIptables (ex : Exec) (st : ExecSt) (args : List String) :
    ExecSt × Option CmdResult :=
  let st1 : ExecSt := { st with trace := st.trace ++ [Event.runCmd "iptables" args] }
  match ex "iptables" args with
  | Except.error _ => (st1, none)
  | Except.ok r =>
      (if r.success then { st1 with fw := applyIptables st1.fw args } else st1, some r)

/-- Run a sequence of iptables commands with the source's `output()?`
semantics: a spawn failure becomes `NipeError::IoError` and aborts the
sequence; exit statuses are not inspected. -/
def runIptablesSeq (ex : Exec) (st : ExecSt) :
    List (List String) → ExecSt × Except NipeError Unit
  | [] => (st, Except.ok ())
  | args :: rest =>
    match runIptables ex st args with
    | (st1, none) => (st1, Except.error (NipeError.IoError "failed to spawn iptables"))
    | (st1, some _) => runIptablesSeq ex st1 rest

/-- `LinuxFirewall::enable_kill_switch` (src/platform/linux.rs lines
17-36): flush both OUTPUT chains, then run `setup_nat_rules` and
`setup_filter_rules`; every command uses `output()?`, so only spawn
failures are errors — exit statuses are ignored. -/
def linux_enable_kill_switch (ex : Exec) (st : ExecSt) :
    ExecSt × Except NipeError Unit :=
  runIptablesSeq ex st
    ([flushNatArgs, flushFilterArgs] ++ linuxNatRuleArgs linuxTorUser ++
      linuxFilterRuleArgs linuxTorUser)

/-- `LinuxFirewall::disable_kill_switch` (src/platform/linux.rs lines
38-56): flush both OUTPUT chains and delete user chains; `output()?`
semantics as above. -/
def linux_disable_kill_switch (ex : Exec) (st : ExecSt) :
    ExecSt × Except NipeError Unit :=
  runIptablesSeq ex st
    [flushNatArgs, flushFilterArgs, ["-t", "nat", "-X"], ["-t", "filter", "-X"]]

/-- `LinuxFirewall::enable_socks_proxy` (src/platform/linux.rs lines
58-63): logging only, always `Ok`. -/
def linux_enable_socks_proxy (_port : Nat) : Except NipeError Unit :=
  Except.ok ()

/-- `LinuxFirewall::disable_socks_proxy` (src/platform/linux.rs lines
65-68): no-op, always `Ok`. -/
def linux_disable_socks_proxy : Except NipeError Unit :=
  Except.ok ()

/-! ## macOS firewall variant (src/platform/macos.rs) -/

/-- `MacOSFirewall::enable_kill_switch` (src/platform/macos.rs lines
19-64): write the PF rules file (`?` on the I/O error), run
`pfctl -ef /tmp/nipe_pf.conf`; a spawn failure becomes `FirewallError`,
while a non-success exit status is only logged as a warning and the
function still returns `Ok`. -/
def macos_enable_kill_switch (ex : Exec) (fsWriteOk : Bool) :
    Except NipeError Unit :=
  if fsWriteOk then
    match ex "pfctl" ["-ef", "/tmp/nipe_pf.conf"] with
    | Except.error e => Except.error (NipeError.FirewallError ("Failed to enable PF: " ++ e))
    | Except.ok _ => Except.ok ()
  else
    Except.error (NipeError.IoError "failed to write /tmp/nipe_pf.conf")

/-- `MacOSFirewall::disable_kill_switch` (src/platform/macos.rs lines
66-83): run `pfctl -d`; spawn failure becomes `FirewallError`, a
non-success exit status is only logged; the rules-file removal result is
discarded. -/
def macos_disable_kill_switch (ex : Exec) : Except NipeError Unit :=
  match ex "pfctl" ["-d"] with
  | Except.error e => Except.error (NipeError.FirewallError ("Failed to disable PF: " ++ e))
  | Except.ok _ => Except.ok ()

/-- `MacOSFirewall::disable_socks_proxy` (src/platform/macos.rs lines
123-138): the `networksetup -setsocksfirewallproxystate .. off` status is
discarded (`let _ = ..`), then `disable_kill_switch()?` runs. -/
def macos_disable_socks_proxy (ex : Exec) : Except NipeError Unit :=
  macos_disable_kill_switch ex

/-! ## Windows firewall variant (src/platform/windows.rs) -/

/-- `WindowsFirewall::run_netsh` (src/platform/windows.rs lines 12-25):
spawn failure and non-success exit status both become `CommandError`; the
non-success error text names the failed argument list (the source formats
it with `{:?}`; here the arguments are joined with spaces), not the
command's standard error. -/
def run_netsh (ex : Exec) (args : List String) : Except NipeError Unit :=
  match ex "netsh" args with
  | Except.error e => Except.error (NipeError.CommandError e)
  | Except.ok r =>
      if r.success then Except.ok ()
      else Except.error (NipeError.CommandError
        ("netsh command failed: " ++ String.intercalate " " args))

/-- Arguments of the kill-switch rule deletion (src/platform/windows.rs
lines 40-46 and 63-69). -/
def winDeleteRuleArgs : List String :=
  ["advfirewall", "firewall", "delete", "rule", "name=Nipe Kill Switch"]

/-- Arguments of the kill-switch rule installation (src/platform/windows.rs
lines 48-58). -/
def winAddRuleArgs : List String :=
  ["advfirewall", "firewall", "add", "rule", "name=Nipe Kill Switch",
   "dir=out", "action=block", "enable=yes", "profile=any"]

/-- `WindowsFirewall::enable_kill_switch` (src/platform/windows.rs lines
37-59): the delete of any pre-existing rule has its result discarded
(`let _ = ..`), then the add-rule command's result is returned. -/
def windows_enable_kill_switch (ex : Exec) : Except NipeError Unit :=
  let _ := run_netsh ex winDeleteRuleArgs
  run_netsh ex winAddRuleArgs

/-- `WindowsFirewall::disable_kill_switch` (src/platform/windows.rs lines
61-70): returns the delete-rule command's result — a failure of the
delete (as netsh reports when no rule matches) propagates. -/
def windows_disable_kill_switch (ex : Exec) : Except NipeError Unit :=
  run_netsh ex winDeleteRuleArgs

/-- `WindowsFirewall::disable_socks_proxy` (src/platform/windows.rs lines
78-81): `netsh winhttp reset proxy`. -/
def windows_disable_socks_proxy (ex : Exec) : Except NipeError Unit :=
  run_netsh ex ["winhttp", "reset", "proxy"]

/-! ## Bootstrap monitor (src/engine.rs, wait_for_bootstrap /
check_tor_connection) -/

/-- Outcome of one bootstrap verification round trip, as seen by
`check_tor_connection` (src/engine.rs lines 314-334): either the request
machinery failed (client build, send, or JSON decode — all surfaced as
`reqwest` errors), or a JSON document arrived and `json["IsTor"].as_bool()`
evaluated to the contained value. -/
inductive TorCheckResponse where
  | reqError (e : String)
  | json (isTor : Option Bool)
  deriving Repr, DecidableEq

/-- `check_tor_connection` (src/engine.rs lines 314-334): `Ok` exactly when
the response's `IsTor` field is the boolean `true`; any other field value
yields `NotConnected`, a transport failure yields `RequestError`. -/
def check_tor_connection : TorCheckResponse → Except NipeError Unit
  | TorCheckResponse.reqError e => Except.error (NipeError.RequestError e)
  | TorCheckResponse.json (some true) => Except.ok ()
  | TorCheckResponse.json (some false) => Except.error NipeError.NotConnected
  | TorCheckResponse.json none => Except.error NipeError.NotConnected

/-- The loop body of `wait_for_bootstrap` (src/engine.rs lines 291-312),
with the per-call responses supplied as a function of the attempt index.
Returns the result together with the number of attempts performed and the
number of one-second sleeps executed (the source sleeps after every failed
attempt, and returns before sleeping on a successful one). -/
def bootstrapLoop (resp : Nat → TorCheckResponse) (attempt : Nat) :
    Nat → Except NipeError Unit × Nat × Nat
  | 0 => (Except.error NipeError.BootstrapTimeout, 0, 0)
  | fuel + 1 =>
    if (check_tor_connection (resp attempt)).isOk then
      (Except.ok (), 1, 0)
    else
      let r := bootstrapLoop resp (attempt + 1) fuel
      (r.1, r.2.1 + 1, r.2.2 + 1)

/-- `max_attempts` of `wait_for_bootstrap` (src/engine.rs line 294). -/
def maxBootstrapAttempts : Nat := 60

/-- `wait_for_bootstrap` (src/engine.rs lines 291-312): up to 60 attempts
starting at index 0. -/
def wait_for_bootstrap (resp : Nat → TorCheckResponse) :
    Except NipeError Unit × Nat × Nat :=
  bootstrapLoop resp 0 maxBootstrapAttempts

/-! ## Control channel (src/engine.rs, rotate) -/

/-- Observable actions on the control-channel connection. -/
inductive CtrlEvent where
  | connect (addr : String)
  | write (bytes : String)
  | read
  deriving Repr, DecidableEq

/-- Environment for one `rotate()` call: whether the TCP connect succeeds
(with the failure text otherwise) and whether each `write_all` succeeds
(with the I/O error text otherwise). -/
structure CtrlEnv where
  connect : Except String Unit
  write1 : Except String Unit
  write2 : Except String Unit

/-- The first line `rotate` writes (src/engine.rs line 282). -/
def authLine : String := "AUTHENTICATE \"\"\r\n"

/-- The second line `rotate` writes (src/engine.rs line 285). -/
def newnymLine : String := "SIGNAL NEWNYM\r\n"

/-- `rotate` (src/engine.rs lines 272-289): connect to
`127.0.0.1:<control_port>`, write the authentication line, write the
NEWNYM signal line, return `Ok`.  Connect failures become
`NipeError::Other(..)`, write failures become `IoError`; nothing is ever
read from the connection. -/
def rotate (cfg : NipeConfig) (env : CtrlEnv) :
    Except NipeError Unit × List CtrlEvent :=
  let addr := "127.0.0.1:" ++ toString cfg.tor.control_port
  match env.connect with
  | Except.error e =>
      (Except.error (NipeError.Other ("Failed to connect to Tor control port: " ++ e)),
       [CtrlEvent.connect addr])
  | Except.ok _ =>
    match env.write1 with
    | Except.error e =>
        (Except.error (NipeError.IoError e),
         [CtrlEvent.connect addr, CtrlEvent.write authLine])
    | Except.ok _ =>
      match env.write2 with
      | Except.error e =>
          (Except.error (NipeError.IoError e),
           [CtrlEvent.connect addr, CtrlEvent.write authLine, CtrlEvent.write newnymLine])
      | Except.ok _ =>
          (Except.ok (),
           [CtrlEvent.connect addr, CtrlEvent.write authLine, CtrlEvent.write newnymLine])

/-! ## Engine (src/engine.rs) -/

/-- The mutable fields of `NipeEngine`: the owned Tor process handle (as a
pid) and the resolved unprivileged user. -/
structure EngineSt where
  tor_process : Option Nat
  tor_user : Option (Nat × Nat)
  deriving Repr, DecidableEq

/-- Environment of one engine operation.  Each fallible interaction of
`start_internal` / `stop` with the host is one field; the several
log-directory and log-file preparation steps (src/engine.rs lines 156-201),
none of which any claim inspects individually, are collapsed into the
single flag `logSetupOk`.  The two chown calls for the data directory and
the torrc file share `chownOk`. -/
structure EngEnv where
  torUser : Option (Nat × Nat)
  createDirsOk : Bool
  setPermsOk : Bool
  chownOk : Bool
  writeTorrcOk : Bool
  logSetupOk : Bool
  pathExists : String → Bool
  spawnTor : Except String Nat
  checkResp : Nat → TorCheckResponse
  exec : Exec
  killOk : Bool

deriving instance DecidableEq for Except

/-- Result of one engine operation: the returned value, the engine state,
the installed firewall ruleset, and the event trace. -/
structure EngOut where
  res : Except NipeError Unit
  st : EngineSt
  fw : List FwRule
  trace : List Event
  deriving Repr, DecidableEq

/-- The pkill pattern of `stop`'s fallback process termination
(src/engine.rs line 263): the string literal `tor -f /tmp/nipe_torrc`. -/
def pkillPattern : String := "tor -f /tmp/nipe_torrc"

/-- `NipeEngine::stop` (src/engine.rs lines 244-270): construct the
firewall (always succeeds on the Linux variant), disable the kill switch
(`?` — a failure aborts the remaining phases), disable the SOCKS proxy
(no-op `Ok` on Linux), then either kill the held Tor process (`take()`
clears the handle before the fallible kill) or fire the best-effort pkill
fallback whose outcome is discarded. -/
def engine_stop (env : EngEnv) (st : EngineSt) (fw : List FwRule) : EngOut :=
  let (ex1, r1) := linux_disable_kill_switch env.exec ⟨fw, []⟩
  match r1 with
  | Except.error e => ⟨Except.error e, st, ex1.fw, ex1.trace⟩
  | Except.ok _ =>
    match st.tor_process with
    | some pid =>
        let tr := ex1.trace ++ [Event.killProcess pid]
        if env.killOk then
          ⟨Except.ok (), { st with tor_process := none }, ex1.fw, tr⟩
        else
          ⟨Except.error (NipeError.TorStopFailed "kill failed"),
           { st with tor_process := none }, ex1.fw, tr⟩
    | none =>
        ⟨Except.ok (), st, ex1.fw,
         ex1.trace ++ [Event.runCmd "pkill" ["-f", pkillPattern]]⟩

/-- `NipeEngine::start_internal` (src/engine.rs lines 113-242): resolve the
Tor user, prepare the data directory (create, chmod 700, chown), generate
and chown the torrc, prepare the log file, resolve the Tor binary, spawn
`tor -f <torrc>`, wait for bootstrap, then enable the kill switch and the
SOCKS proxy unconditionally, and finally detach the process handle. -/
def engine_start_internal (cfg : NipeConfig) (env : EngEnv) (st : EngineSt)
    (fw : List FwRule) : EngOut :=
  let st := { st with tor_user := env.torUser }
  if env.createDirsOk = false then
    ⟨Except.error (NipeError.IoError "create_dir_all failed"), st, fw, []⟩
  else if env.setPermsOk = false then
    ⟨Except.error (NipeError.IoError "set_permissions failed"), st, fw, []⟩
  else if env.torUser.isSome && !env.chownOk then
    ⟨Except.error (NipeError.Other "Failed to chown data directory"), st, fw, []⟩
  else
    let torrcFile := pathDisplay (torrcPath cfg)
    if env.writeTorrcOk = false then
      ⟨Except.error (NipeError.IoError "write torrc failed"), st, fw, []⟩
    else
      let tr0 := [Event.fsWrite torrcFile]
      if env.torUser.isSome && !env.chownOk then
        ⟨Except.error (NipeError.Other "Failed to chown torrc"), st, fw, tr0⟩
      else if env.logSetupOk = false then
        ⟨Except.error (NipeError.TorStartFailed "log setup failed"), st, fw, tr0⟩
      else
        let torCmd :=
          match ["/usr/bin/tor", "/usr/sbin/tor", "/usr/local/bin/tor",
                 "/opt/homebrew/bin/tor", "/opt/local/bin/tor"].find? env.pathExists with
          | some p => p
          | none => "tor"
        let tr1 := tr0 ++ [Event.spawn torCmd ["-f", torrcFile]]
        match env.spawnTor with
        | Except.error e =>
            ⟨Except.error (NipeError.TorStartFailed e), st, fw, tr1⟩
        | Except.ok pid =>
          let st := { st with tor_process := some pid }
          match (wait_for_bootstrap env.checkResp).1 with
          | Except.error e => ⟨Except.error e, st, fw, tr1⟩
          | Except.ok _ =>
            let (ex1, r1) := linux_enable_kill_switch env.exec ⟨fw, tr1⟩
            match r1 with
            | Except.error e => ⟨Except.error e, st, ex1.fw, ex1.trace⟩
            | Except.ok _ =>
              match linux_enable_socks_proxy cfg.tor.socks_port with
              | Except.error e => ⟨Except.error e, st, ex1.fw, ex1.trace⟩
              | Except.ok _ =>
                  ⟨Except.ok (), { st with tor_process := none }, ex1.fw, ex1.trace⟩

/-- `NipeEngine::start` (src/engine.rs lines 97-111): best-effort stop of
any prior instance (result discarded), then `start_internal`; on its
failure a best-effort rollback `stop` runs (result discarded) and the
original error is returned unchanged. -/
def engine_start (cfg : NipeConfig) (env : EngEnv) (st : EngineSt)
    (fw : List FwRule) : EngOut :=
  let s1 := engine_stop env st fw
  let s2 := engine_start_internal cfg env s1.st s1.fw
  match s2.res with
  | Except.ok _ => ⟨Except.ok (), s2.st, s2.fw, s1.trace ++ s2.trace⟩
  | Except.error e =>
      let s3 := engine_stop env s2.st s2.fw
      ⟨Except.error e, s3.st, s3.fw, s1.trace ++ s2.trace ++ s3.trace⟩

/-! ## Concrete environments and configurations used in evaluations -/

/-- An executor on which every command spawns and exits successfully. -/
def okExec : Exec := fun _ _ => Except.ok ⟨true, ""⟩

/-- An executor on which every command spawns but exits with a failure
status and diagnostic text on standard error. -/
def failStatusExec : Exec := fun _ _ =>
  Except.ok ⟨false, "Permission denied (you must be root)"⟩

/-- An executor on which no command can even be spawned (e.g. the binary
is missing from the system). -/
def spawnFailExec : Exec := fun _ _ =>
  Except.error "No such file or directory (os error 2)"

/-- An executor modelling a host where nothing was ever installed: every
command spawns, but reports failure because there is nothing to act on —
in particular `netsh advfirewall firewall delete rule` exits with a
failure status when no rule matches the given name. -/
def noRuleExec : Exec := fun _ _ =>
  Except.ok ⟨false, "No rules match the specified criteria."⟩

/-- An engine environment where every host interaction succeeds: no
unprivileged user is found, all filesystem steps succeed, the Tor binary
probe finds nothing (falling back to `tor`), the spawn yields pid 7, the
very first bootstrap check reports `IsTor = true`, and every external
command succeeds. -/
def happyEnv : EngEnv :=
  { torUser := none
    createDirsOk := true
    setPermsOk := true
    chownOk := true
    writeTorrcOk := true
    logSetupOk := true
    pathExists := fun _ => false
    spawnTor := Except.ok 7
    checkResp := fun _ => TorCheckResponse.json (some true)
    exec := okExec
    killOk := true }

/-- Like `happyEnv`, except the Tor binary cannot be spawned. -/
def spawnFailEnv : EngEnv :=
  { happyEnv with spawnTor := Except.error "No such file or directory (os error 2)" }

/-- Like `happyEnv`, except no external command can be spawned (so every
iptables invocation fails at the OS level). -/
def iptablesDownEnv : EngEnv := { happyEnv with exec := spawnFailExec }

/-- The default configuration with the firewall kill switch disabled by
policy. -/
def killSwitchOffCfg : NipeConfig :=
  { defaultNipeConfig with
    firewall := { defaultNipeConfig.firewall with enable_kill_switch := false } }

/-- The default Tor configuration with bridges enabled and no explicit
client transport plugin, so `generate_torrc` probes the filesystem for
obfs4proxy. -/
def bridgeUseCfg : TorConfig :=
  { defaultNipeConfig.tor with use_bridges := true }

/-- A pre-existing installed ruleset holding one kill-switch rule in the
filter table's OUTPUT chain. -/
def preFw : List FwRule :=
  [⟨"filter", "OUTPUT", ["-p", "udp", "-j", "REJECT"]⟩]

/-! ## Helper lemmas: bootstrap loop -/

theorem bootstrapLoop_ok_iff (resp : Nat → TorCheckResponse) :
    ∀ fuel a, (bootstrapLoop resp a fuel).1 = Except.ok () ↔
      ∃ k, k < fuel ∧ (check_tor_connection (resp (a + k))).isOk = true := by
  intro fuel
  induction fuel with
  | zero => intro a; simp [bootstrapLoop]
  | succ f ih =>
    intro a
    by_cases h : (check_tor_connection (resp a)).isOk = true
    · constructor
      · intro _
        exact ⟨0, Nat.succ_pos f, by simpa using h⟩
      · intro _
        simp [bootstrapLoop, h]
    · have h0 : (check_tor_connection (resp a)).isOk = false := by
        simpa using h
      constructor
      · intro hok
        have hok1 : (bootstrapLoop resp (a + 1) f).1 = Except.ok () := by
          simpa [bootstrapLoop, h0] using hok
        obtain ⟨k, hk, hkok⟩ := (ih (a + 1)).1 hok1
        refine ⟨k + 1, by omega, ?_⟩
        have e : a + (k + 1) = a + 1 + k := by omega
        rw [e]
        exact hkok
      · intro hex
        obtain ⟨k, hk, hkok⟩ := hex
        cases k with
        | zero =>
            rw [show a + 0 = a from rfl] at hkok
            rw [hkok] at h0
            cases h0
        | succ j =>
            have e : a + (j + 1) = a + 1 + j := by omega
            rw [e] at hkok
            have : (bootstrapLoop resp (a + 1) f).1 = Except.ok () :=
              (ih (a + 1)).2 ⟨j, by omega, hkok⟩
            simpa [bootstrapLoop, h0] using this

theorem bootstrapLoop_attempts_le (resp : Nat → TorCheckResponse) :
    ∀ fuel a, (bootstrapLoop resp a fuel).2.1 ≤ fuel := by
  intro fuel
  induction fuel with
  | zero => intro a; simp [bootstrapLoop]
  | succ f ih =>
    intro a
    by_cases h : (check_tor_connection (resp a)).isOk = true
    · simp [bootstrapLoop, h]
    · have h0 : (check_tor_connection (resp a)).isOk = false := by simpa using h
      have := ih (a + 1)
      simp only [bootstrapLoop, h0]
      simp only [Bool.false_eq_true, if_false]
      omega

theorem bootstrapLoop_res_cases (resp : Nat → TorCheckResponse) :
    ∀ fuel a, (bootstrapLoop resp a fuel).1 = Except.ok () ∨
      (bootstrapLoop resp a fuel).1 = Except.error NipeError.BootstrapTimeout := by
  intro fuel
  induction fuel with
  | zero => intro a; simp [bootstrapLoop]
  | succ f ih =>
    intro a
    by_cases h : (check_tor_connection (resp a)).isOk = true
    · simp [bootstrapLoop, h]
    · have h0 : (check_tor_connection (resp a)).isOk = false := by simpa using h
      have := ih (a + 1)
      simpa [bootstrapLoop, h0] using this

theorem bootstrapLoop_first_success (resp : Nat → TorCheckResponse) :
    ∀ fuel a i, i < fuel →
      (check_tor_connection (resp (a + i))).isOk = true →
      (∀ j, j < i → (check_tor_connection (resp (a + j))).isOk = false) →
      bootstrapLoop resp a fuel = (Except.ok (), i + 1, i) := by
  intro fuel
  induction fuel with
  | zero => intro a i hi; omega
  | succ f ih =>
    intro a i hi hok hbefore
    cases i with
    | zero =>
        have h : (check_tor_connection (resp a)).isOk = true := by simpa using hok
        simp [bootstrapLoop, h]
    | succ i' =>
        have h0 : (check_tor_connection (resp a)).isOk = false := by
          simpa using hbefore 0 (Nat.succ_pos i')
        have e : a + (i' + 1) = a + 1 + i' := by omega
        have hrec : bootstrapLoop resp (a + 1) f = (Except.ok (), i' + 1, i') := by
          refine ih (a + 1) i' (by omega) (by rw [← e]; exact hok) ?_
          intro j hj
          have e2 : a + 1 + j = a + (j + 1) := by omega
          rw [e2]
          exact hbefore (j + 1) (by omega)
        simp [bootstrapLoop, h0, hrec]

/-! ## Claim theorems -/

/-- C9: the bootstrap verification loop performs at most 60 attempts; it
succeeds exactly when some attempt among the first 60 reports the
`IsTor = true` field, times out (`BootstrapTimeout`) exactly when all 60
attempts fail, an attempt succeeds exactly when the round trip returned a
JSON object whose boolean field is `true`, and on the first successful
attempt the loop stops immediately, having used `i + 1` attempts and `i`
one-second sleeps. -/
theorem C9_bootstrap_bound_and_first_success (resp : Nat → TorCheckResponse) :
    ((wait_for_bootstrap resp).1 = Except.ok () ↔
      ∃ i, i < maxBootstrapAttempts ∧ (check_tor_connection (resp i)).isOk = true) ∧
    ((wait_for_bootstrap resp).1 = Except.error NipeError.BootstrapTimeout ↔
      ∀ i, i < maxBootstrapAttempts → (check_tor_connection (resp i)).isOk = false) ∧
    (wait_for_bootstrap resp).2.1 ≤ maxBootstrapAttempts ∧
    (∀ r, (check_tor_connection r).isOk = true ↔ r = TorCheckResponse.json (some true)) ∧
    (∀ i, i < maxBootstrapAttempts → (check_tor_connection (resp i)).isOk = true →
      (∀ j, j < i → (check_tor_connection (resp j)).isOk = false) →
      wait_for_bootstrap resp = (Except.ok (), i + 1, i)) := by
  have hok := bootstrapLoop_ok_iff resp maxBootstrapAttempts 0
  have hcases := bootstrapLoop_res_cases resp maxBootstrapAttempts 0
  refine ⟨by simpa [wait_for_bootstrap] using hok, ?_, ?_, ?_, ?_⟩
  · constructor
    · intro htime
      intro i hi
      by_contra hfail
      have hfail1 : (check_tor_connection (resp i)).isOk = true := by
        simpa using hfail
      have hkk : (bootstrapLoop resp 0 maxBootstrapAttempts).1 = Except.ok () :=
        hok.2 ⟨i, hi, by simpa using hfail1⟩
      have hcontra : (Except.ok () : Except NipeError Unit) =
          Except.error NipeError.BootstrapTimeout := by
        rw [← hkk]
        exact htime
      cases hcontra
    · intro hall
      rcases hcases with hc | hc
      · exfalso
        obtain ⟨k, hk, hkok⟩ := hok.1 hc
        have hfalse := hall k hk
        rw [show 0 + k = k from by omega] at hkok
        rw [hfalse] at hkok
        cases hkok
      · exact hc
  · simpa [wait_for_bootstrap] using bootstrapLoop_attempts_le resp maxBootstrapAttempts 0
  · intro r
    cases r with
    | reqError e => simp [check_tor_connection, Except.isOk, Except.toBool]
    | json o =>
      cases o with
      | none => simp [check_tor_connection, Except.isOk, Except.toBool]
      | some b => cases b <;> simp [check_tor_connection, Except.isOk, Except.toBool]
  · intro i hi hiok hbefore
    have := bootstrapLoop_first_success resp maxBootstrapAttempts 0 i hi
      (by simpa using hiok) (fun j hj => by simpa using hbefore j hj)
    simpa [wait_for_bootstrap] using this

/-- A response sequence whose third attempt is the first success. -/
def c9Resp : Nat → TorCheckResponse := fun i =>
  if i = 2 then TorCheckResponse.json (some true) else TorCheckResponse.json (some false)

/-- Witness for C9: with the first success on attempt index 2, the loop
returns success after exactly 3 attempts and 2 sleeps. -/
theorem C9_witness : wait_for_bootstrap c9Resp = (Except.ok (), 3, 2) :=
  (C9_bootstrap_bound_and_first_success c9Resp).2.2.2.2 2 (by decide) (by decide)
    (by decide)

/-- C10: `rotate` reports success exactly when the connect and both writes
succeed; on success the connection trace is one connect to
`127.0.0.1:<control_port>` followed by exactly the two CRLF-terminated
lines `AUTHENTICATE ""` then `SIGNAL NEWNYM`, in that order; no read is
ever performed. -/
theorem C10_rotate_two_lines_no_read (cfg : NipeConfig) (env : CtrlEnv) :
    (((rotate cfg env).1 = Except.ok ()) ↔
      (env.connect.isOk = true ∧ env.write1.isOk = true ∧ env.write2.isOk = true)) ∧
    ((rotate cfg env).1 = Except.ok () →
      (rotate cfg env).2 =
        [CtrlEvent.connect ("127.0.0.1:" ++ toString cfg.tor.control_port),
         CtrlEvent.write authLine, CtrlEvent.write newnymLine]) ∧
    CtrlEvent.read ∉ (rotate cfg env).2 ∧
    authLine = "AUTHENTICATE \"\"\r\n" ∧ newnymLine = "SIGNAL NEWNYM\r\n" := by
  obtain ⟨c, w1, w2⟩ := env
  cases c <;> cases w1 <;> cases w2 <;>
    simp [rotate, authLine, newnymLine, Except.isOk, Except.toBool]

/-- Witness for C10: with a connect and two successful writes, the trace is
exactly the connect followed by the two protocol lines. -/
theorem C10_witness :
    (rotate defaultNipeConfig ⟨Except.ok (), Except.ok (), Except.ok ()⟩).2 =
      [CtrlEvent.connect "127.0.0.1:9051",
       CtrlEvent.write authLine, CtrlEvent.write newnymLine] := by
  rw [(C10_rotate_two_lines_no_read defaultNipeConfig
    ⟨Except.ok (), Except.ok (), Except.ok ()⟩).2.1 rfl]
  decide

/-! ## Helper lemmas: iptables command sequences -/

theorem runIptablesSeq_spawnOk (ex : Exec)
    (h : ∀ args, (ex "iptables" args).isOk = true) :
    ∀ cmds st, (runIptablesSeq ex st cmds).2 = Except.ok () ∧
      (runIptablesSeq ex st cmds).1.trace =
        st.trace ++ cmds.map (Event.runCmd "iptables") := by
  intro cmds
  induction cmds with
  | nil => intro st; simp [runIptablesSeq]
  | cons args rest ih =>
    intro st
    have hx := h args
    cases hex : ex "iptables" args with
    | error e =>
        rw [hex] at hx
        simp [Except.isOk, Except.toBool] at hx
    | ok r =>
        simp only [runIptablesSeq, runIptables, hex]
        cases hr : r.success <;>
          · simp only [hr, if_true, if_false, Bool.false_eq_true]
            refine ⟨(ih _).1, ?_⟩
            rw [(ih _).2]
            simp

theorem runIptablesSeq_fullOk (ex : Exec)
    (h : ∀ args, ∃ s, ex "iptables" args = Except.ok ⟨true, s⟩) :
    ∀ cmds st, (runIptablesSeq ex st cmds).2 = Except.ok () ∧
      (runIptablesSeq ex st cmds).1.fw = cmds.foldl applyIptables st.fw := by
  intro cmds
  induction cmds with
  | nil => intro st; simp [runIptablesSeq]
  | cons args rest ih =>
    intro st
    obtain ⟨s, hex⟩ := h args
    simp only [runIptablesSeq, runIptables, hex, if_true, List.foldl]
    exact ih _

theorem killSwitchActive_after_flushes (fw : List FwRule) :
    killSwitchActive
      ((fw.filter (fun r => !(r.table == "nat" && r.chain == "OUTPUT"))).filter
        (fun r => !(r.table == "filter" && r.chain == "OUTPUT"))) = false := by
  rw [Bool.eq_false_iff]
  intro hany
  rw [killSwitchActive, List.any_eq_true] at hany
  obtain ⟨r, hr, hp⟩ := hany
  rw [List.mem_filter] at hr
  obtain ⟨hr1, hq⟩ := hr
  rw [List.mem_filter] at hr1
  obtain ⟨_, hp1⟩ := hr1
  simp at hp hp1 hq
  tauto

theorem linux_disable_fullOk (ex : Exec)
    (h : ∀ args, ∃ s, ex "iptables" args = Except.ok ⟨true, s⟩) (st : ExecSt) :
    (linux_disable_kill_switch ex st).2 = Except.ok () ∧
    killSwitchActive (linux_disable_kill_switch ex st).1.fw = false := by
  have hseq := runIptablesSeq_fullOk ex h
    [flushNatArgs, flushFilterArgs, ["-t", "nat", "-X"], ["-t", "filter", "-X"]] st
  refine ⟨hseq.1, ?_⟩
  rw [show linux_disable_kill_switch ex st =
    runIptablesSeq ex st
      [flushNatArgs, flushFilterArgs, ["-t", "nat", "-X"], ["-t", "filter", "-X"]] from rfl]
  rw [hseq.2]
  simp only [List.foldl, applyIptables, flushNatArgs, flushFilterArgs]
  exact killSwitchActive_after_flushes st.fw

/-! ## Helper lemmas: engine stop and start -/

theorem engine_stop_allOk (env : EngEnv) (st : EngineSt) (fw : List FwRule)
    (h : ∀ args, ∃ s, env.exec "iptables" args = Except.ok ⟨true, s⟩) :
    (engine_stop env st fw).st.tor_process = none ∧
    killSwitchActive (engine_stop env st fw).fw = false ∧
    (st.tor_process = none → (engine_stop env st fw).res = Except.ok () ∧
      Event.runCmd "pkill" ["-f", pkillPattern] ∈ (engine_stop env st fw).trace) ∧
    (env.killOk = true → (engine_stop env st fw).res = Except.ok ()) ∧
    (env.killOk = false → ∀ pid, st.tor_process = some pid →
      (engine_stop env st fw).res = Except.error (NipeError.TorStopFailed "kill failed")) := by
  have hd := linux_disable_fullOk env.exec h ⟨fw, []⟩
  rcases hld : linux_disable_kill_switch env.exec ⟨fw, []⟩ with ⟨ex1, r1⟩
  rw [hld] at hd
  obtain ⟨hr1, hfw⟩ := hd
  simp only at hr1 hfw
  rw [hr1] at hld
  cases hst : st.tor_process with
  | none =>
      simp only [engine_stop, hld, hst]
      cases hk : env.killOk <;> simp [hfw, hst]
  | some pid =>
      simp only [engine_stop, hld, hst]
      cases hk : env.killOk <;> simp [hfw, hst]

theorem start_internal_spawn_fail (cfg : NipeConfig) (env : EngEnv) (st : EngineSt)
    (fw : List FwRule) (msg : String)
    (h1 : env.createDirsOk = true) (h2 : env.setPermsOk = true)
    (h3 : env.chownOk = true) (h4 : env.writeTorrcOk = true)
    (h5 : env.logSetupOk = true) (h6 : env.spawnTor = Except.error msg) :
    (engine_start_internal cfg env st fw).res =
      Except.error (NipeError.TorStartFailed msg) ∧
    (engine_start_internal cfg env st fw).st.tor_process = st.tor_process ∧
    (engine_start_internal cfg env st fw).fw = fw := by
  simp [engine_start_internal, h1, h2, h3, h4, h5, h6]

/-! ## Claim theorems (continued) -/

/-- C2, divergence evaluation: the catch-all TCP rule installed by
`setup_nat_rules` redirects to the hardcoded port string "9051", which is
the default configuration's control port — not its SOCKS port 9050 — and
the DNS rules redirect to the hardcoded "9061"; no port of the
`RuntimeConfig` reaches `setup_nat_rules` at all (its only parameter is
the firewall's user name). -/
theorem C2_nat_redirect_ports_hardcoded :
    (linuxNatRuleArgs linuxTorUser)[4]? =
      some ["-t", "nat", "-A", "OUTPUT", "-p", "tcp", "-j", "REDIRECT",
            "--to-ports", "9051"] ∧
    toString defaultNipeConfig.tor.socks_port = "9050" ∧
    toString defaultNipeConfig.tor.control_port = "9051" ∧
    (linuxNatRuleArgs linuxTorUser)[2]? =
      some ["-t", "nat", "-A", "OUTPUT", "-p", "udp", "--dport", "53", "-j",
            "REDIRECT", "--to-ports", "9061"] ∧
    (linuxNatRuleArgs linuxTorUser)[3]? =
      some ["-t", "nat", "-A", "OUTPUT", "-p", "tcp", "--dport", "53", "-j",
            "REDIRECT", "--to-ports", "9061"] ∧
    toString defaultNipeConfig.tor.dns_port = "9061" := by
  decide

/-- C6, divergence evaluation: `start()` spawns Tor with the generated
torrc at `<parent of data_directory>/torrc` — `/tmp/nipe/torrc` for the
default configuration — while `stop()`'s fallback pkill pattern names the
fixed path `/tmp/nipe_torrc`, so the fallback pattern never matches the
command line of the process that `start()` spawned. -/
theorem C6_pkill_pattern_mismatch :
    pathDisplay (torrcPath defaultNipeConfig) = "/tmp/nipe/torrc" ∧
    pkillPattern = "tor -f /tmp/nipe_torrc" ∧
    Event.spawn "tor" ["-f", "/tmp/nipe/torrc"] ∈
      (engine_start defaultNipeConfig happyEnv ⟨none, none⟩ []).trace ∧
    "tor -f " ++ pathDisplay (torrcPath defaultNipeConfig) ≠ pkillPattern := by
  decide

set_option maxRecDepth 4096 in
/-- C8 counterexample: with bridges enabled and no explicit transport
plugin, the generated text depends on the filesystem's obfs4proxy probe,
so it is not a function of the RuntimeConfig alone. -/
theorem C8_counterexample :
    torrcContent bridgeUseCfg (fun _ => false) ≠
      torrcContent bridgeUseCfg (fun p => p == "/usr/local/bin/obfs4proxy") := by
  decide

/-- C8, amended: generation is a deterministic function of the
RuntimeConfig together with the obfs4proxy filesystem probe; whenever
bridges are disabled or an explicit `client_transport_plugin` is set, the
text does not depend on the filesystem at all, i.e. it is a function of
the RuntimeConfig alone. -/
theorem C8_generation_deterministic (cfg : TorConfig) (fs1 fs2 : String → Bool)
    (h : cfg.use_bridges = false ∨ cfg.client_transport_plugin.isSome = true) :
    torrcContent cfg fs1 = torrcContent cfg fs2 := by
  rcases h with h | h
  · simp [torrcContent, bridgeConfig, h]
  · cases hp : cfg.client_transport_plugin with
    | none => rw [hp] at h; simp at h
    | some p => simp [torrcContent, bridgeConfig, hp]

/-- Witness for C8: the default configuration (no bridges) generates
identical text under two different filesystem states. -/
theorem C8_witness :
    torrcContent defaultNipeConfig.tor (fun _ => false) =
      torrcContent defaultNipeConfig.tor (fun _ => true) :=
  C8_generation_deterministic defaultNipeConfig.tor _ _ (Or.inl rfl)

/-- C4 counterexample: on the Linux variant, an environment in which every
iptables rule-installation command runs but exits with a failure status
(and diagnostic text on standard error) still makes `enable_kill_switch`
return success — exit statuses are never inspected. -/
theorem C4_counterexample :
    (linux_enable_kill_switch failStatusExec ⟨[], []⟩).2 = Except.ok () ∧
    failStatusExec "iptables" flushNatArgs =
      Except.ok ⟨false, "Permission denied (you must be root)"⟩ := by
  decide

/-- C4, amended: only the Windows variant ties `enable_kill_switch`
success to a rule command's exit status (and its error carries the failed
command's argument list, not its standard error); the Linux variant
returns success whenever every iptables command can be spawned, ignoring
all exit statuses, and the macOS variant returns success whenever `pfctl`
can be spawned, logging (not reporting) a non-success exit. -/
theorem C4_enable_error_reporting :
    (∀ ex : Exec, ∀ st : ExecSt, (∀ args, (ex "iptables" args).isOk = true) →
      (linux_enable_kill_switch ex st).2 = Except.ok ()) ∧
    (∀ ex : Exec, ∀ r : CmdResult, ex "pfctl" ["-ef", "/tmp/nipe_pf.conf"] = Except.ok r →
      macos_enable_kill_switch ex true = Except.ok ()) ∧
    (∀ ex : Exec, ∀ r : CmdResult, ex "netsh" winAddRuleArgs = Except.ok r →
      (windows_enable_kill_switch ex = Except.ok () ↔ r.success = true)) ∧
    (∀ ex : Exec, ∀ r : CmdResult, ex "netsh" winAddRuleArgs = Except.ok r →
      r.success = false →
      windows_enable_kill_switch ex =
        Except.error (NipeError.CommandError
          ("netsh command failed: " ++ String.intercalate " " winAddRuleArgs))) := by
  refine ⟨?_, ?_, ?_, ?_⟩
  · intro ex st h
    exact (runIptablesSeq_spawnOk ex h _ st).1
  · intro ex r hex
    simp [macos_enable_kill_switch, hex]
  · intro ex r hex
    cases hr : r.success <;>
      simp [windows_enable_kill_switch, run_netsh, hex, hr]
  · intro ex r hex hr
    simp [windows_enable_kill_switch, run_netsh, hex, hr]

/-- Witness for C4: with all commands succeeding, the Linux and macOS
variants enable successfully; with the add-rule command failing, the
Windows variant reports the command error. -/
theorem C4_witness :
    (linux_enable_kill_switch okExec ⟨[], []⟩).2 = Except.ok () ∧
    macos_enable_kill_switch okExec true = Except.ok () ∧
    windows_enable_kill_switch noRuleExec =
      Except.error (NipeError.CommandError
        ("netsh command failed: " ++ String.intercalate " " winAddRuleArgs)) :=
  ⟨C4_enable_error_reporting.1 okExec ⟨[], []⟩ (fun _ => rfl),
   C4_enable_error_reporting.2.1 okExec ⟨true, ""⟩ rfl,
   C4_enable_error_reporting.2.2.2 noRuleExec
     ⟨false, "No rules match the specified criteria."⟩ rfl rfl⟩

/-- C7 counterexample: on the Windows variant, on a host where the kill
switch was never enabled (the delete command runs but reports that no rule
matches), `disable_kill_switch` returns an error instead of success. -/
theorem C7_counterexample :
    windows_disable_kill_switch noRuleExec =
      Except.error (NipeError.CommandError
        ("netsh command failed: " ++ String.intercalate " " winDeleteRuleArgs)) ∧
    noRuleExec "netsh" winDeleteRuleArgs =
      Except.ok ⟨false, "No rules match the specified criteria."⟩ := by
  decide

/-- C7, amended: the Linux and macOS disables return success regardless of
command exit statuses (so in particular on a host where nothing was ever
enabled), and the Linux and macOS proxy disables always succeed; the
Windows disables succeed exactly when their netsh command reports success
— so `disable_kill_switch` on Windows fails on a host where the rule was
never installed, since the delete command reports failure there. -/
theorem C7_disable_success_by_variant :
    (∀ ex : Exec, ∀ st : ExecSt, (∀ args, (ex "iptables" args).isOk = true) →
      (linux_disable_kill_switch ex st).2 = Except.ok ()) ∧
    linux_disable_socks_proxy = Except.ok () ∧
    (∀ ex : Exec, ∀ r : CmdResult, ex "pfctl" ["-d"] = Except.ok r →
      macos_disable_kill_switch ex = Except.ok () ∧
      macos_disable_socks_proxy ex = Except.ok ()) ∧
    (∀ ex : Exec, ∀ r : CmdResult, ex "netsh" winDeleteRuleArgs = Except.ok r →
      (windows_disable_kill_switch ex = Except.ok () ↔ r.success = true)) ∧
    (∀ ex : Exec, ∀ r : CmdResult, ex "netsh" ["winhttp", "reset", "proxy"] = Except.ok r →
      (windows_disable_socks_proxy ex = Except.ok () ↔ r.success = true)) := by
  refine ⟨?_, rfl, ?_, ?_, ?_⟩
  · intro ex st h
    exact (runIptablesSeq_spawnOk ex h _ st).1
  · intro ex r hex
    constructor <;> simp [macos_disable_kill_switch, macos_disable_socks_proxy, hex]
  · intro ex r hex
    cases hr : r.success <;>
      simp [windows_disable_kill_switch, run_netsh, hex, hr]
  · intro ex r hex
    cases hr : r.success <;>
      simp [windows_disable_socks_proxy, run_netsh, hex, hr]

/-- Witness for C7: on executors where the commands succeed, all three
variants' disables succeed. -/
theorem C7_witness :
    (linux_disable_kill_switch okExec ⟨[], []⟩).2 = Except.ok () ∧
    macos_disable_kill_switch okExec = Except.ok () ∧
    (windows_disable_kill_switch okExec = Except.ok () ↔ (true : Bool) = true) :=
  ⟨C7_disable_success_by_variant.1 okExec ⟨[], []⟩ (fun _ => rfl),
   (C7_disable_success_by_variant.2.2.1 okExec ⟨true, ""⟩ rfl).1,
   C7_disable_success_by_variant.2.2.2.1 okExec ⟨true, ""⟩ rfl⟩

/-- C1, divergence evaluation: with the policy field
`firewall.enable_kill_switch = false` and every host step succeeding,
`start()` still returns success having executed the full iptables
kill-switch rule installation — `start_internal` calls
`enable_kill_switch` unconditionally and the flag is read nowhere. -/
theorem C1_kill_switch_flag_ignored :
    killSwitchOffCfg.firewall.enable_kill_switch = false ∧
    (engine_start killSwitchOffCfg happyEnv ⟨none, none⟩ []).res = Except.ok () ∧
    Event.runCmd "iptables"
        ["-t", "nat", "-A", "OUTPUT", "-p", "tcp", "-j", "REDIRECT",
         "--to-ports", "9051"] ∈
      (engine_start killSwitchOffCfg happyEnv ⟨none, none⟩ []).trace ∧
    killSwitchActive (engine_start killSwitchOffCfg happyEnv ⟨none, none⟩ []).fw = true := by
  decide

/-- C3 counterexample: when the firewall-disable phase of `stop()` fails
(iptables cannot be spawned), the process-termination phase is never
attempted — the held handle is not killed, no fallback pkill runs, and the
handle is still owned afterwards — contradicting the claim that all phases
run regardless of earlier outcomes. -/
theorem C3_counterexample :
    (engine_stop iptablesDownEnv ⟨some 42, none⟩ []).res =
      Except.error (NipeError.IoError "failed to spawn iptables") ∧
    Event.killProcess 42 ∉ (engine_stop iptablesDownEnv ⟨some 42, none⟩ []).trace ∧
    Event.runCmd "pkill" ["-f", pkillPattern] ∉
      (engine_stop iptablesDownEnv ⟨some 42, none⟩ []).trace ∧
    (engine_stop iptablesDownEnv ⟨some 42, none⟩ []).st.tor_process = some 42 := by
  decide

/-- C3, amended: `stop()` runs its phases in order but aborts at the first
failing phase — a firewall-disable failure is returned as the error and
the process-termination phase is skipped; when the firewall phases
succeed, the process phase's error (if any) is reported; and "nothing to
stop" is never an error: with no held handle the fallback pkill runs with
its outcome ignored and stop returns success. -/
theorem C3_stop_phase_order (env : EngEnv) (st : EngineSt) (fw : List FwRule) :
    ((∀ args, ∃ s, env.exec "iptables" args = Except.ok ⟨true, s⟩) →
      env.killOk = true → (engine_stop env st fw).res = Except.ok ()) ∧
    ((∀ args, ∃ s, env.exec "iptables" args = Except.ok ⟨true, s⟩) →
      st.tor_process = none →
      (engine_stop env st fw).res = Except.ok () ∧
      Event.runCmd "pkill" ["-f", pkillPattern] ∈ (engine_stop env st fw).trace) ∧
    (∀ e, env.exec "iptables" flushNatArgs = Except.error e →
      (engine_stop env st fw).res =
        Except.error (NipeError.IoError "failed to spawn iptables") ∧
      (∀ pid, Event.killProcess pid ∉ (engine_stop env st fw).trace) ∧
      Event.runCmd "pkill" ["-f", pkillPattern] ∉ (engine_stop env st fw).trace) ∧
    ((∀ args, ∃ s, env.exec "iptables" args = Except.ok ⟨true, s⟩) →
      env.killOk = false → ∀ pid, st.tor_process = some pid →
      (engine_stop env st fw).res =
        Except.error (NipeError.TorStopFailed "kill failed")) := by
  refine ⟨fun h hk => (engine_stop_allOk env st fw h).2.2.2.1 hk,
    fun h hn => (engine_stop_allOk env st fw h).2.2.1 hn, ?_,
    fun h hk pid hp => (engine_stop_allOk env st fw h).2.2.2.2 hk pid hp⟩
  intro e he
  simp only [flushNatArgs] at he
  simp [engine_stop, linux_disable_kill_switch, runIptablesSeq, runIptables, he,
    pkillPattern, flushNatArgs]

/-- Witness for C3: with all commands succeeding and no held handle,
`stop()` succeeds and the fallback pkill was attempted. -/
theorem C3_witness :
    (engine_stop happyEnv ⟨none, none⟩ []).res = Except.ok () ∧
    Event.runCmd "pkill" ["-f", pkillPattern] ∈
      (engine_stop happyEnv ⟨none, none⟩ []).trace :=
  (C3_stop_phase_order happyEnv ⟨none, none⟩ []).2.1 (fun _ => ⟨"", rfl⟩) rfl

/-- C5 counterexample: a failed spawn does return the original
start-failed error, but the kill-switch state is NOT preserved — starting
from a host with an installed kill-switch rule, the rollback (and the
initial best-effort stop) leave the firewall cleared, so the state after
the call differs from the state before it. -/
theorem C5_counterexample :
    killSwitchActive preFw = true ∧
    (engine_start defaultNipeConfig spawnFailEnv ⟨none, none⟩ preFw).res =
      Except.error (NipeError.TorStartFailed "No such file or directory (os error 2)") ∧
    (engine_start defaultNipeConfig spawnFailEnv ⟨none, none⟩ preFw).fw ≠ preFw ∧
    killSwitchActive (engine_start defaultNipeConfig spawnFailEnv ⟨none, none⟩ preFw).fw
      = false := by
  decide

/-- C5, amended: if the Tor spawn fails while every other host step
succeeds, `start()` returns the original spawn failure unchanged (rollback
errors are suppressed), and the firewall kill switch is DISABLED after the
call — which equals the pre-call state exactly when no kill-switch rules
were installed beforehand. -/
theorem C5_spawn_fail_rolls_back (cfg : NipeConfig) (env : EngEnv) (st : EngineSt)
    (fw : List FwRule) (msg : String)
    (h1 : env.createDirsOk = true) (h2 : env.setPermsOk = true)
    (h3 : env.chownOk = true) (h4 : env.writeTorrcOk = true)
    (h5 : env.logSetupOk = true) (h6 : env.spawnTor = Except.error msg)
    (h7 : ∀ args, ∃ s, env.exec "iptables" args = Except.ok ⟨true, s⟩) :
    (engine_start cfg env st fw).res = Except.error (NipeError.TorStartFailed msg) ∧
    killSwitchActive (engine_start cfg env st fw).fw = false := by
  have hsi := start_internal_spawn_fail cfg env (engine_stop env st fw).st
    (engine_stop env st fw).fw msg h1 h2 h3 h4 h5 h6
  have hstop2 := engine_stop_allOk env
    (engine_start_internal cfg env (engine_stop env st fw).st (engine_stop env st fw).fw).st
    (engine_start_internal cfg env (engine_stop env st fw).st (engine_stop env st fw).fw).fw h7
  simp only [engine_start, hsi.1]
  exact ⟨trivial, hstop2.2.1⟩

/-- Witness for C5: with the default configuration, an empty initial
ruleset and a failing spawn, `start()` reports the spawn failure and the
kill switch ends disabled. -/
theorem C5_witness :
    (engine_start defaultNipeConfig spawnFailEnv ⟨none, none⟩ []).res =
      Except.error (NipeError.TorStartFailed "No such file or directory (os error 2)") ∧
    killSwitchActive (engine_start defaultNipeConfig spawnFailEnv ⟨none, none⟩ []).fw
      = false :=
  C5_spawn_fail_rolls_back defaultNipeConfig spawnFailEnv ⟨none, none⟩ [] _
    rfl rfl rfl rfl rfl rfl (fun _ => ⟨"", rfl⟩)

end TorWar
